import Mathlib

/-!
Verification of the user-authentication resolver (`src/resolvers/user.ts`):
registration, login, current-user lookup, password-reset request and logout.
The resolver is embedded shallowly; external collaborators (user store,
redis token store, notifier, argon2, uuid) appear as explicit parameters or
as definitions modelled from the specification's contracts.
-/

set_option autoImplicit false

namespace RadIt

/-- Does `sub` occur as a contiguous run inside `l`? -/
def charsInclude (sub : List Char) : List Char → Bool
  | [] => sub.isEmpty
  | c :: cs => sub.isPrefixOf (c :: cs) || charsInclude sub cs

/-- JavaScript `String.prototype.includes`: substring containment. -/
def jsIncludes (s sub : String) : Bool :=
  charsInclude sub.data s.data

/-- A field-level error `{field, message}` (class `FieldError`). -/
structure FieldError where
  field : String
  message : String
deriving DecidableEq, Repr

/-- A row of the `user` table as the store returns it (`returning "*"`):
id, username, email, password hash and the two timestamps. -/
structure UserRow where
  id : Nat
  username : String
  email : String
  password : String
  created_at : Nat
  updated_at : Nat
deriving DecidableEq, Repr

/-- Modelled from the spec: the `User` entity's outward (GraphQL-exposed)
field set is not under `src/`; per the spec the password field is never
exposed outward, so the outward record has id, username, email and the
timestamps only. -/
structure User where
  id : Nat
  username : String
  email : String
  created_at : Nat
  updated_at : Nat
deriving DecidableEq, Repr

/-- The outward projection of a stored row: every field except the password. -/
def expose (r : UserRow) : User :=
  { id := r.id, username := r.username, email := r.email,
    created_at := r.created_at, updated_at := r.updated_at }

/-- The `UserResponse` object type: optional error list and optional user,
both absent by default. -/
structure UserResponse where
  errors : Option (List FieldError)
  user : Option User
deriving DecidableEq, Repr

/-- The registration input `UsernamePasswordInput {username, email, password}`. -/
structure UsernamePasswordInput where
  username : String
  email : String
  password : String
deriving DecidableEq, Repr

/-- Modelled from the spec: `validateRegister` (in `src/utils/`, not under
`src/` here) applies every rule and returns every violation found:
username length ≥ 3 and no `@`; email contains `@`; password length ≥ 3. -/
def validateRegisterErrors (o : UsernamePasswordInput) : List FieldError :=
  (if o.username.length < 3 then
    [{ field := "username", message := "length must be greater than 2" }] else [])
  ++ (if jsIncludes o.username "@" then
    [{ field := "username", message := "cannot include an @" }] else [])
  ++ (if jsIncludes o.email "@" then [] else
    [{ field := "email", message := "invalid email" }])
  ++ (if o.password.length < 3 then
    [{ field := "password", message := "length must be greater than 2" }] else [])

/-- Modelled from the spec: `validateRegister` hands the caller a value that
is falsy exactly when no violation was found (the caller tests it with
`if (errors)`), i.e. `none` when valid and `some` of the non-empty violation
list otherwise. -/
def validateRegister (o : UsernamePasswordInput) : Option (List FieldError) :=
  let errs := validateRegisterErrors o
  if errs.isEmpty then none else some errs

/-- The column values `register` passes to the store's insert:
username, email, the hashed password, and `new Date()` twice. -/
structure InsertFields where
  username : String
  email : String
  password : String
  created_at : Nat
  updated_at : Nat
deriving DecidableEq, Repr

/-- Outcome of the user store's insert: a returned row, or a failure whose
error carries a `detail` string (the driver's error detail). -/
inductive InsertOutcome where
  | ok (row : UserRow)
  | fail (detail : String)
deriving DecidableEq, Repr

/-- The fields `register` inserts, given the hasher, the current time and
the input options. -/
def registerFields (hash : String → String) (now : Nat)
    (opts : UsernamePasswordInput) : InsertFields :=
  { username := opts.username, email := opts.email,
    password := hash opts.password, created_at := now, updated_at := now }

/-- Result of a `register` call: the response, plus the fields passed to the
store's insert when the insert was attempted (`none` when validation
returned early). -/
structure RegisterResult where
  response : UserResponse
  inserted : Option InsertFields
deriving DecidableEq, Repr

/-- `register`: validate, return `{errors}` on a truthy validation result;
otherwise hash the password and insert. On an insert error whose `detail`
contains `"already exists"`, return a single `username`/"this username has
already been taken" field error. On any other insert error the `catch`
falls through and `return { user }` returns the still-unset `user`. -/
def register (hash : String → String) (now : Nat) (opts : UsernamePasswordInput)
    (store : InsertFields → InsertOutcome) : RegisterResult :=
  match validateRegister opts with
  | some errors => { response := { errors := some errors, user := none }, inserted := none }
  | none =>
    let fields := registerFields hash now opts
    let response : UserResponse :=
      match store fields with
      | .ok row => { errors := none, user := some (expose row) }
      | .fail detail =>
        if jsIncludes detail "already exists" then
          { errors := some [⟨"username", "this username has already been taken"⟩],
            user := none }
        else
          { errors := none, user := none }
    { response := response, inserted := some fields }

/-- The request-scoped session: at most a `userId`. -/
structure Session where
  userId : Option Nat
deriving DecidableEq, Repr

/-- `login`'s user lookup: `em.findOne` by email when the identifier
contains `@`, by username otherwise. -/
def loginLookup (db : List UserRow) (usernameOrEmail : String) : Option UserRow :=
  if jsIncludes usernameOrEmail "@" then
    db.find? (fun u => u.email == usernameOrEmail)
  else
    db.find? (fun u => u.username == usernameOrEmail)

/-- `login`: look the user up, fail with `usernameOrEmail`/"username does
not exist" when absent, verify the password (argon2, passed in as `verify`),
fail with `password`/"incorrect password" on mismatch, otherwise store the
user id in the session and return the user. -/
def login (db : List UserRow) (verify : String → String → Bool)
    (usernameOrEmail password : String) (session : Session) :
    UserResponse × Session :=
  match loginLookup db usernameOrEmail with
  | none =>
    ({ errors := some [⟨"usernameOrEmail", "username does not exist"⟩],
       user := none }, session)
  | some u =>
    if verify u.password password then
      ({ errors := none, user := some (expose u) }, { userId := some u.id })
    else
      ({ errors := some [⟨"password", "incorrect password"⟩],
         user := none }, session)

/-- `me`: `null` when the session holds no `userId`, otherwise the result of
`em.findOne(User, {id})` — the user when one exists, `null` otherwise. -/
def me (session : Session) (db : List UserRow) : Option User :=
  match session.userId with
  | none => none
  | some uid => (db.find? (fun u => u.id == uid)).map expose

/-- Modelled from the spec: the Token Store contract — key/value entries,
each with an absolute expiry instant. Entries are `(key, value, expiry)`. -/
def TokenStore := List (String × Nat × Nat)

/-- Modelled from the spec: `set(key, value, ttlMillis)` — stores the pair
and lets it expire after the time-to-live; a `set` on the same key
overwrites, a `set` on another key leaves the entry alone. -/
def tsSet (ts : TokenStore) (key : String) (value : Nat) (now ttl : Nat) : TokenStore :=
  (key, value, now + ttl) :: ts.filter (fun e => !(e.1 == key))

/-- Modelled from the spec: `get(key) -> value|absent` — the stored value
while the entry's time-to-live has not elapsed, absent afterwards. -/
def tsGet (ts : TokenStore) (key : String) (now : Nat) : Option Nat :=
  match ts.find? (fun e => e.1 == key) with
  | some (_, v, expiry) => if now < expiry then some v else none
  | none => none

/-- Modelled from the spec: the fixed namespace the resolver prepends to
reset-token keys (`FORGET_PASSWORD_PREFIX` from `constants.ts`, which is not
under `src/`). -/
def FORGET_PASSWORD_NS : String := "forget-password:"

/-- Modelled from the spec: `v4()` — a cryptographically random, unguessable
token string, fresh on each call; modelled as an injective supply indexed by
how many tokens were generated before. -/
def genToken (n : Nat) : String :=
  String.mk (List.replicate (n + 1) 'x')

/-- The TTL the resolver passes to the token store's set:
`1000 * 60 * 60 * 24 * 3` ("forget password token good for 3 days"). -/
def TOKEN_TTL : Nat := 1000 * 60 * 60 * 24 * 3

/-- The reset email body: a link to `/change-password/<token>`. -/
def resetEmailBody (token : String) : String :=
  "<a href=\"http://localhost:3000/change-password/" ++ token ++
    "\">reset password</a>"

/-- The mutable world `forgotPassword` touches: the redis token store, the
log of emails handed to `sendEmail` as `(address, body)`, and the supply
index of the token generator. -/
structure ResetState where
  tokens : TokenStore
  emails : List (String × String)
  nextToken : Nat

/-- `forgotPassword`: look the user up by email; when absent return `true`
untouched; otherwise generate a token, store `prefix+token ↦ user.id` with
the 3-day TTL, send the reset email, and return `true`. -/
def forgotPassword (db : List UserRow) (email : String) (now : Nat)
    (st : ResetState) : Bool × ResetState :=
  match db.find? (fun u => u.email == email) with
  | none => (true, st)
  | some user =>
    let token := genToken st.nextToken
    (true,
      { tokens := tsSet st.tokens (FORGET_PASSWORD_NS ++ token) user.id now TOKEN_TTL,
        emails := st.emails ++ [(email, resetEmailBody token)],
        nextToken := st.nextToken + 1 })

/-- Outcome the session framework reports to `req.session.destroy`'s
callback: clean, or an error value. -/
inductive DestroyOutcome where
  | ok
  | error (err : String)
deriving DecidableEq, Repr

/-- The observable effects of a `logout` call: whether
`res.clearCookie(COOKIE_NAME)` ran, and what was `console.log`ged. -/
structure LogoutEffects where
  cookieCleared : Bool
  logged : List String
deriving DecidableEq, Repr

/-- `logout`: destroy the session; in the callback clear the cookie first,
then resolve `false` (logging the error) when destroy reported one and
`true` otherwise. The promise always resolves — nothing is thrown. -/
def logout (outcome : DestroyOutcome) : Bool × LogoutEffects :=
  match outcome with
  | .ok => (true, { cookieCleared := true, logged := [] })
  | .error e => (false, { cookieCleared := true, logged := [e] })

/-! ### Helper lemmas -/

theorem validateRegister_some_ne_nil (o : UsernamePasswordInput)
    (errs : List FieldError) (h : validateRegister o = some errs) : errs ≠ [] := by
  unfold validateRegister at h
  by_cases he : (validateRegisterErrors o).isEmpty
  · simp [he] at h
  · simp [he] at h
    subst h
    simpa [List.isEmpty_iff] using he

theorem register_response_eq (hash : String → String) (now : Nat)
    (opts : UsernamePasswordInput) (store : InsertFields → InsertOutcome) :
    (register hash now opts store).response =
      match validateRegister opts with
      | some errors => { errors := some errors, user := none }
      | none =>
        match store (registerFields hash now opts) with
        | .ok row => { errors := none, user := some (expose row) }
        | .fail detail =>
          if jsIncludes detail "already exists" then
            { errors := some [⟨"username", "this username has already been taken"⟩],
              user := none }
          else
            { errors := none, user := none } := by
  unfold register
  cases validateRegister opts <;> rfl

theorem login_response_eq (db : List UserRow) (verify : String → String → Bool)
    (usernameOrEmail password : String) (s : Session) :
    (login db verify usernameOrEmail password s).1 =
      match loginLookup db usernameOrEmail with
      | none =>
        { errors := some [⟨"usernameOrEmail", "username does not exist"⟩],
          user := none }
      | some u =>
        if verify u.password password then
          { errors := none, user := some (expose u) }
        else
          { errors := some [⟨"password", "incorrect password"⟩], user := none } := by
  unfold login
  cases loginLookup db usernameOrEmail with
  | none => rfl
  | some u => by_cases h : verify u.password password <;> simp [h]

/-! ### C1 -/

/-- C1 (counterexample): when the insert fails because the *email* is the
duplicate (driver detail names the email key), `register` still returns the
single field error tagged `"username"`, not `"email"`, so the error is not
tagged to the violating field. -/
theorem register_duplicate_email_tagged_username :
    ((register (fun s => s) 0 ⟨"alice", "a@x.com", "secret"⟩
        (fun _ => InsertOutcome.fail "Key (email)=(a@x.com) already exists.")).response.errors
      = some [⟨"username", "this username has already been taken"⟩])
    ∧ ("username" : String) ≠ "email" := by
  exact ⟨by decide, by decide⟩

/-- C1 (amended): on any insert failure whose error detail contains
`"already exists"` (a duplicate username *or* a duplicate email), the result
is the single field error `username` / "this username has already been
taken" — always tagged `"username"` whichever field is the duplicate — and
the raw storage error is not propagated (the response is this fixed field
error, independent of the error's content). -/
theorem register_duplicate_always_username (hash : String → String) (now : Nat)
    (opts : UsernamePasswordInput) (store : InsertFields → InsertOutcome)
    (detail : String)
    (hval : validateRegister opts = none)
    (hstore : store (registerFields hash now opts) = InsertOutcome.fail detail)
    (hdup : jsIncludes detail "already exists" = true) :
    (register hash now opts store).response =
      { errors := some [⟨"username", "this username has already been taken"⟩],
        user := none } := by
  rw [register_response_eq, hval, hstore]
  simp [hdup]

/-- C1 (witness): the duplicate branch at a concrete input. -/
theorem register_duplicate_always_username_witness :
    validateRegister ⟨"bob", "b@x.com", "pw3"⟩ = none
    ∧ (register (fun s => s) 0 ⟨"bob", "b@x.com", "pw3"⟩
        (fun _ => InsertOutcome.fail "Key (username)=(bob) already exists.")).response
      = { errors := some [⟨"username", "this username has already been taken"⟩],
          user := none } :=
  ⟨by decide,
   register_duplicate_always_username (fun s => s) 0 ⟨"bob", "b@x.com", "pw3"⟩
     (fun _ => InsertOutcome.fail "Key (username)=(bob) already exists.")
     "Key (username)=(bob) already exists." (by decide) rfl (by decide)⟩

/-! ### C3 -/

/-- C3 (counterexample): when the insert fails with an error whose detail
does not contain `"already exists"` (here a generic driver failure), the
`catch` block falls through and `register` returns a response with *neither*
a user nor errors populated. -/
theorem register_neither_populated :
    ((register (fun s => s) 0 ⟨"alice", "a@x.com", "secret"⟩
        (fun _ => InsertOutcome.fail "connection refused")).response.errors = none)
    ∧ ((register (fun s => s) 0 ⟨"alice", "a@x.com", "secret"⟩
        (fun _ => InsertOutcome.fail "connection refused")).response.user = none) := by
  exact ⟨by decide, by decide⟩

/-- C3 (amended): `register` and `login` never return both a populated user
and errors, and a returned error list is never empty; `login` always returns
exactly one of the two; `register` returns exactly one of the two except
when validation passes and the insert fails with a detail not containing
`"already exists"`, in which case neither is populated. -/
theorem response_exclusivity (hash : String → String) (now : Nat)
    (opts : UsernamePasswordInput) (store : InsertFields → InsertOutcome)
    (db : List UserRow) (verify : String → String → Bool)
    (usernameOrEmail password : String) (s : Session) :
    (¬((register hash now opts store).response.errors.isSome
        ∧ (register hash now opts store).response.user.isSome))
    ∧ (∀ errs, (register hash now opts store).response.errors = some errs → errs ≠ [])
    ∧ (((register hash now opts store).response.errors = none
        ∧ (register hash now opts store).response.user = none)
        ↔ (validateRegister opts = none
            ∧ ∃ detail, store (registerFields hash now opts) = InsertOutcome.fail detail
                ∧ jsIncludes detail "already exists" = false))
    ∧ ((login db verify usernameOrEmail password s).1.errors.isSome
        ↔ ¬(login db verify usernameOrEmail password s).1.user.isSome)
    ∧ (∀ errs, (login db verify usernameOrEmail password s).1.errors = some errs →
        errs ≠ []) := by
  rw [register_response_eq, login_response_eq]
  refine ⟨?_, ?_, ?_, ?_, ?_⟩ <;>
  · cases hval : validateRegister opts with
    | some errs =>
      have hne := validateRegister_some_ne_nil opts errs hval
      cases hlook : loginLookup db usernameOrEmail with
      | none => simp_all
      | some u => by_cases hv : verify u.password password <;> simp_all
    | none =>
      cases hstore : store (registerFields hash now opts) with
      | ok row =>
        cases hlook : loginLookup db usernameOrEmail with
        | none => simp_all
        | some u => by_cases hv : verify u.password password <;> simp_all
      | fail detail =>
        by_cases hdup : jsIncludes detail "already exists" <;>
        · cases hlook : loginLookup db usernameOrEmail with
          | none => simp_all
          | some u => by_cases hv : verify u.password password <;> simp_all

/-! ### C4 -/

/-- C4 (counterexample): the no-match error message is
"username does not exist", not "does not exist" as the claim states. -/
theorem login_missing_message_mismatch :
    ((login [] (fun _ _ => false) "ghost" "pw" ⟨none⟩).1.errors
      = some [⟨"usernameOrEmail", "username does not exist"⟩])
    ∧ ("username does not exist" : String) ≠ "does not exist" := by
  exact ⟨by decide, by decide⟩

/-- C4 (amended): `login` looks the user up by email when the identifier
contains `@` and by username otherwise, and when that lookup finds no user
it returns the single field error `usernameOrEmail` / "username does not
exist" and leaves the session untouched. -/
theorem login_lookup_and_missing (db : List UserRow) (verify : String → String → Bool)
    (usernameOrEmail password : String) (s : Session) :
    (jsIncludes usernameOrEmail "@" = true →
      loginLookup db usernameOrEmail = db.find? (fun u => u.email == usernameOrEmail))
    ∧ (jsIncludes usernameOrEmail "@" = false →
      loginLookup db usernameOrEmail = db.find? (fun u => u.username == usernameOrEmail))
    ∧ (loginLookup db usernameOrEmail = none →
      login db verify usernameOrEmail password s =
        ({ errors := some [⟨"usernameOrEmail", "username does not exist"⟩],
           user := none }, s)) := by
  refine ⟨fun h => ?_, fun h => ?_, fun h => ?_⟩
  · simp [loginLookup, h]
  · simp [loginLookup, h]
  · unfold login
    rw [h]

/-- C4 (witness): the three parts at concrete inputs. -/
theorem login_lookup_and_missing_witness :
    (jsIncludes "a@x.com" "@" = true
      ∧ loginLookup [] "a@x.com" = List.find? (fun u => u.email == "a@x.com") [])
    ∧ (jsIncludes "bob" "@" = false
      ∧ loginLookup [] "bob" = List.find? (fun u => u.username == "bob") [])
    ∧ (loginLookup [] "bob" = none
      ∧ login [] (fun _ _ => false) "bob" "pw" ⟨none⟩ =
          ({ errors := some [⟨"usernameOrEmail", "username does not exist"⟩],
             user := none }, ⟨none⟩)) :=
  ⟨⟨by decide, (login_lookup_and_missing [] (fun _ _ => false) "a@x.com" "pw" ⟨none⟩).1
      (by decide)⟩,
   ⟨by decide, (login_lookup_and_missing [] (fun _ _ => false) "bob" "pw" ⟨none⟩).2.1
      (by decide)⟩,
   ⟨by decide, (login_lookup_and_missing [] (fun _ _ => false) "bob" "pw" ⟨none⟩).2.2
      (by decide)⟩⟩

/-! ### C5 -/

/-- C5: when validation passes and the insert succeeds with the stored row,
`register` returns that row as a success with no errors; the outward record
is the row's password-free projection — it is unchanged under any change of
the row's password, so no password field reaches the caller. -/
theorem register_success_exposes_row (hash : String → String) (now : Nat)
    (opts : UsernamePasswordInput) (store : InsertFields → InsertOutcome)
    (row : UserRow)
    (hval : validateRegister opts = none)
    (hstore : store (registerFields hash now opts) = InsertOutcome.ok row) :
    (register hash now opts store).response =
      { errors := none, user := some (expose row) }
    ∧ ∀ pw : String, expose { row with password := pw } = expose row := by
  constructor
  · rw [register_response_eq, hval, hstore]
  · intro pw
    rfl

/-- C5 (witness): a successful registration at a concrete input. -/
theorem register_success_exposes_row_witness :
    validateRegister ⟨"bob", "b@x.com", "pw3"⟩ = none
    ∧ (register (fun s => s) 7 ⟨"bob", "b@x.com", "pw3"⟩
        (fun f => InsertOutcome.ok ⟨1, f.username, f.email, f.password, 7, 7⟩)).response
      = { errors := none, user := some ⟨1, "bob", "b@x.com", 7, 7⟩ } :=
  ⟨by decide,
   (register_success_exposes_row (fun s => s) 7 ⟨"bob", "b@x.com", "pw3"⟩
     (fun f => InsertOutcome.ok ⟨1, f.username, f.email, f.password, 7, 7⟩)
     ⟨1, "bob", "b@x.com", "pw3", 7, 7⟩ (by decide) rfl).1⟩

/-! ### C6 -/

/-- C6: when the validator finds no violations (its error sequence is
empty), `register` does not return early on validation; it attempts the
insert with exactly the input's username and email and the hash of the
input's password. -/
theorem register_valid_proceeds (hash : String → String) (now : Nat)
    (opts : UsernamePasswordInput) (store : InsertFields → InsertOutcome)
    (h : validateRegisterErrors opts = []) :
    (register hash now opts store).inserted = some (registerFields hash now opts)
    ∧ (registerFields hash now opts).password = hash opts.password
    ∧ (registerFields hash now opts).username = opts.username
    ∧ (registerFields hash now opts).email = opts.email := by
  have hv : validateRegister opts = none := by
    unfold validateRegister
    simp [h]
  unfold register
  rw [hv]
  exact ⟨rfl, rfl, rfl, rfl⟩

/-- C6 (witness): a valid input proceeds to the insert. -/
theorem register_valid_proceeds_witness :
    validateRegisterErrors ⟨"bob", "b@x.com", "pw3"⟩ = []
    ∧ (register (fun s => s ++ "#") 7 ⟨"bob", "b@x.com", "pw3"⟩
        (fun _ => InsertOutcome.fail "down")).inserted
      = some ⟨"bob", "b@x.com", "pw3#", 7, 7⟩ :=
  ⟨by decide,
   (register_valid_proceeds (fun s => s ++ "#") 7 ⟨"bob", "b@x.com", "pw3"⟩
     (fun _ => InsertOutcome.fail "down") (by decide)).1⟩

/-! ### C8 -/

/-- C8: `logout` always clears the session cookie, for both destroy
outcomes; it returns `true` exactly on a clean destroy; and when destroy
reports an error the call still returns (`false`) with the error logged. -/
theorem logout_clears_cookie (outcome : DestroyOutcome) :
    (logout outcome).2.cookieCleared = true
    ∧ ((logout outcome).1 = true ↔ outcome = DestroyOutcome.ok)
    ∧ (∀ e, outcome = DestroyOutcome.error e →
        (logout outcome).1 = false ∧ (logout outcome).2.logged = [e]) := by
  cases outcome <;> simp [logout]

/-- C8 (witness): both destroy outcomes at concrete values. -/
theorem logout_clears_cookie_witness :
    ((logout DestroyOutcome.ok).2.cookieCleared = true
      ∧ (logout DestroyOutcome.ok).1 = true)
    ∧ ((logout (DestroyOutcome.error "boom")).2.cookieCleared = true
      ∧ (logout (DestroyOutcome.error "boom")).1 = false
      ∧ (logout (DestroyOutcome.error "boom")).2.logged = ["boom"]) :=
  ⟨⟨(logout_clears_cookie DestroyOutcome.ok).1,
    (logout_clears_cookie DestroyOutcome.ok).2.1.mpr rfl⟩,
   ⟨(logout_clears_cookie (DestroyOutcome.error "boom")).1,
    ((logout_clears_cookie (DestroyOutcome.error "boom")).2.2 "boom" rfl).1,
    ((logout_clears_cookie (DestroyOutcome.error "boom")).2.2 "boom" rfl).2⟩⟩

/-! ### C9 -/

/-- C9: `me` returns the user stored under the session's `userId` when the
session holds one and such a user exists, and an absent value when the
session holds none or no user has that id; it is a total function into an
option, so no error is ever raised. -/
theorem me_lookup (s : Session) (db : List UserRow) :
    (s.userId = none → me s db = none)
    ∧ (∀ uid, s.userId = some uid →
        (∀ u, db.find? (fun r => r.id == uid) = some u → me s db = some (expose u))
        ∧ (db.find? (fun r => r.id == uid) = none → me s db = none)) := by
  refine ⟨fun h => ?_, fun uid h => ⟨fun u hu => ?_, fun hn => ?_⟩⟩
  · simp [me, h]
  · simp only [me, h]
    rw [hu]
    rfl
  · simp only [me, h]
    rw [hn]
    rfl

/-- C9 (witness): all three outcomes at concrete sessions and stores. -/
theorem me_lookup_witness :
    me ⟨none⟩ [⟨1, "bob", "b@x.com", "h", 0, 0⟩] = none
    ∧ me ⟨some 1⟩ [⟨1, "bob", "b@x.com", "h", 0, 0⟩] = some ⟨1, "bob", "b@x.com", 0, 0⟩
    ∧ me ⟨some 2⟩ [⟨1, "bob", "b@x.com", "h", 0, 0⟩] = none :=
  ⟨(me_lookup ⟨none⟩ [⟨1, "bob", "b@x.com", "h", 0, 0⟩]).1 rfl,
   ((me_lookup ⟨some 1⟩ [⟨1, "bob", "b@x.com", "h", 0, 0⟩]).2 1 rfl).1
     ⟨1, "bob", "b@x.com", "h", 0, 0⟩ (by decide),
   ((me_lookup ⟨some 2⟩ [⟨1, "bob", "b@x.com", "h", 0, 0⟩]).2 2 rfl).2 (by decide)⟩

/-! ### Token-store lemmas -/

theorem tsGet_tsSet_same (ts : TokenStore) (k : String) (v now ttl t : Nat) :
    tsGet (tsSet ts k v now ttl) k t = if t < now + ttl then some v else none := by
  unfold tsGet tsSet
  rw [List.find?_cons_of_pos _ (by simp)]

theorem find?_filter_ne (k k' : String) (h : k' ≠ k) (ts : List (String × Nat × Nat)) :
    (ts.filter (fun e => !(e.1 == k))).find? (fun e => e.1 == k')
      = ts.find? (fun e => e.1 == k') := by
  induction ts with
  | nil => rfl
  | cons e rest ih =>
    rw [List.filter_cons]
    by_cases he : e.1 = k
    · rw [if_neg (by simp [he]), ih,
        List.find?_cons_of_neg _ (by simp only [he, beq_iff_eq]; exact fun hk => h hk.symm)]
    · rw [if_pos (by simp [he])]
      by_cases hk' : e.1 = k'
      · rw [List.find?_cons_of_pos _ (by simp [hk']),
          List.find?_cons_of_pos _ (by simp [hk'])]
      · rw [List.find?_cons_of_neg _ (by simp [hk']),
          List.find?_cons_of_neg _ (by simp [hk']), ih]

theorem tsGet_tsSet_other (ts : TokenStore) (k k' : String) (v now ttl t : Nat)
    (h : k' ≠ k) :
    tsGet (tsSet ts k v now ttl) k' t = tsGet ts k' t := by
  unfold tsGet tsSet
  rw [List.find?_cons_of_neg _ (by simp only [beq_iff_eq]; exact fun hk => h hk.symm),
    find?_filter_ne k k' h ts]

theorem genToken_length (n : Nat) : (genToken n).length = n + 1 := by
  simp [genToken, String.length]

theorem genToken_injective (m n : Nat) (h : genToken m = genToken n) : m = n := by
  have h2 : m + 1 = n + 1 := by
    rw [← genToken_length m, ← genToken_length n, h]
  omega

theorem resetKey_injective (m n : Nat)
    (h : FORGET_PASSWORD_NS ++ genToken m = FORGET_PASSWORD_NS ++ genToken n) :
    m = n := by
  have h2 : (FORGET_PASSWORD_NS ++ genToken m).length
      = (FORGET_PASSWORD_NS ++ genToken n).length := by rw [h]
  rw [String.length_append, String.length_append, genToken_length, genToken_length] at h2
  omega

/-! ### C2 -/

/-- C2: for a registered email, `forgotPassword` stores the generated token
(under the namespaced key) mapped to the user's id with a TTL of exactly
259,200,000 ms (3 days): looking the token up before the TTL has elapsed
resolves to the user's id, and looking it up once 3 days have passed
resolves to absent. -/
theorem forgotPassword_token_ttl (db : List UserRow) (email : String) (now : Nat)
    (st : ResetState) (u : UserRow)
    (hfind : db.find? (fun r => r.email == email) = some u) :
    TOKEN_TTL = 259200000
    ∧ (∀ t, t < now + TOKEN_TTL →
        tsGet (forgotPassword db email now st).2.tokens
          (FORGET_PASSWORD_NS ++ genToken st.nextToken) t = some u.id)
    ∧ (∀ t, now + TOKEN_TTL ≤ t →
        tsGet (forgotPassword db email now st).2.tokens
          (FORGET_PASSWORD_NS ++ genToken st.nextToken) t = none) := by
  refine ⟨rfl, fun t ht => ?_, fun t ht => ?_⟩
  · simp only [forgotPassword, hfind]
    rw [tsGet_tsSet_same]
    exact if_pos ht
  · simp only [forgotPassword, hfind]
    rw [tsGet_tsSet_same]
    exact if_neg (by omega)

/-- C2 (witness): a concrete reset request, looked up inside and at the end
of the 3-day window. -/
theorem forgotPassword_token_ttl_witness :
    (List.find? (fun r => r.email == "b@x.com")
        ([⟨1, "bob", "b@x.com", "h", 0, 0⟩] : List UserRow)
      = some ⟨1, "bob", "b@x.com", "h", 0, 0⟩)
    ∧ tsGet (forgotPassword [⟨1, "bob", "b@x.com", "h", 0, 0⟩] "b@x.com" 0
        ⟨[], [], 0⟩).2.tokens (FORGET_PASSWORD_NS ++ genToken 0) 5 = some 1
    ∧ tsGet (forgotPassword [⟨1, "bob", "b@x.com", "h", 0, 0⟩] "b@x.com" 0
        ⟨[], [], 0⟩).2.tokens (FORGET_PASSWORD_NS ++ genToken 0) 259200000 = none :=
  ⟨by decide,
   (forgotPassword_token_ttl [⟨1, "bob", "b@x.com", "h", 0, 0⟩] "b@x.com" 0
     ⟨[], [], 0⟩ ⟨1, "bob", "b@x.com", "h", 0, 0⟩ (by decide)).2.1 5 (by decide),
   (forgotPassword_token_ttl [⟨1, "bob", "b@x.com", "h", 0, 0⟩] "b@x.com" 0
     ⟨[], [], 0⟩ ⟨1, "bob", "b@x.com", "h", 0, 0⟩ (by decide)).2.2 259200000 (by decide)⟩

/-! ### C7 -/

/-- C7: `forgotPassword` answers `true` for every email. When the email is
not registered it leaves the world untouched (no token stored, no email
dispatched); when it is registered it dispatches exactly one notification
to that address and stores a token that resolves to the user's id. -/
theorem forgotPassword_non_enumeration (db : List UserRow) (email : String)
    (now : Nat) (st : ResetState) :
    (forgotPassword db email now st).1 = true
    ∧ (db.find? (fun u => u.email == email) = none →
        (forgotPassword db email now st).2 = st)
    ∧ (∀ u, db.find? (fun r => r.email == email) = some u →
        (forgotPassword db email now st).2.emails
          = st.emails ++ [(email, resetEmailBody (genToken st.nextToken))]
        ∧ tsGet (forgotPassword db email now st).2.tokens
            (FORGET_PASSWORD_NS ++ genToken st.nextToken) now = some u.id) := by
  refine ⟨?_, fun h => ?_, fun u h => ?_⟩
  · unfold forgotPassword
    cases db.find? (fun r => r.email == email) <;> rfl
  · simp only [forgotPassword, h]
  · simp only [forgotPassword, h]
    refine ⟨by trivial, ?_⟩
    rw [tsGet_tsSet_same]
    refine if_pos ?_
    have hTTL : TOKEN_TTL = 259200000 := rfl
    omega

/-- C7 (witness): an unregistered email returns true and changes nothing; a
registered email dispatches one notification. -/
theorem forgotPassword_non_enumeration_witness :
    (forgotPassword [] "ghost@x.com" 0 ⟨[], [], 0⟩).1 = true
    ∧ (forgotPassword [] "ghost@x.com" 0 ⟨[], [], 0⟩).2 = ⟨[], [], 0⟩
    ∧ (forgotPassword [⟨1, "bob", "b@x.com", "h", 0, 0⟩] "b@x.com" 0
        ⟨[], [], 0⟩).2.emails = [("b@x.com", resetEmailBody (genToken 0))] :=
  ⟨(forgotPassword_non_enumeration [] "ghost@x.com" 0 ⟨[], [], 0⟩).1,
   (forgotPassword_non_enumeration [] "ghost@x.com" 0 ⟨[], [], 0⟩).2.1 rfl,
   ((forgotPassword_non_enumeration [⟨1, "bob", "b@x.com", "h", 0, 0⟩] "b@x.com" 0
      ⟨[], [], 0⟩).2.2 ⟨1, "bob", "b@x.com", "h", 0, 0⟩ (by decide)).1⟩

/-! ### C10 -/

/-- C10: two successive reset requests for the same registered email store
the second token under its own distinct key and neither delete nor
overwrite the first mapping: afterwards each of the two keys resolves to
the user's id exactly until its own TTL (counted from its own call time)
elapses. -/
theorem forgotPassword_twice_frame (db : List UserRow) (email : String)
    (t1 t2 : Nat) (st : ResetState) (u : UserRow)
    (hfind : db.find? (fun r => r.email == email) = some u) :
    (FORGET_PASSWORD_NS ++ genToken st.nextToken
      ≠ FORGET_PASSWORD_NS ++ genToken (st.nextToken + 1))
    ∧ ∀ t,
      tsGet (forgotPassword db email t2 (forgotPassword db email t1 st).2).2.tokens
          (FORGET_PASSWORD_NS ++ genToken st.nextToken) t
        = (if t < t1 + TOKEN_TTL then some u.id else none)
      ∧ tsGet (forgotPassword db email t2 (forgotPassword db email t1 st).2).2.tokens
          (FORGET_PASSWORD_NS ++ genToken (st.nextToken + 1)) t
        = (if t < t2 + TOKEN_TTL then some u.id else none) := by
  have hkey : FORGET_PASSWORD_NS ++ genToken st.nextToken
      ≠ FORGET_PASSWORD_NS ++ genToken (st.nextToken + 1) := by
    intro hEq
    have := resetKey_injective _ _ hEq
    omega
  refine ⟨hkey, fun t => ?_⟩
  simp only [forgotPassword, hfind]
  constructor
  · rw [tsGet_tsSet_other _ _ _ _ _ _ _ hkey, tsGet_tsSet_same]
  · rw [tsGet_tsSet_same]

/-- C10 (witness): two concrete calls at times 0 and 10; both tokens
resolve at time 5, and each dies at its own expiry. -/
theorem forgotPassword_twice_frame_witness :
    (FORGET_PASSWORD_NS ++ genToken 0 ≠ FORGET_PASSWORD_NS ++ genToken 1)
    ∧ tsGet (forgotPassword [⟨1, "bob", "b@x.com", "h", 0, 0⟩] "b@x.com" 10
        (forgotPassword [⟨1, "bob", "b@x.com", "h", 0, 0⟩] "b@x.com" 0
          ⟨[], [], 0⟩).2).2.tokens (FORGET_PASSWORD_NS ++ genToken 0) 5 = some 1
    ∧ tsGet (forgotPassword [⟨1, "bob", "b@x.com", "h", 0, 0⟩] "b@x.com" 10
        (forgotPassword [⟨1, "bob", "b@x.com", "h", 0, 0⟩] "b@x.com" 0
          ⟨[], [], 0⟩).2).2.tokens (FORGET_PASSWORD_NS ++ genToken 1) 5 = some 1
    ∧ tsGet (forgotPassword [⟨1, "bob", "b@x.com", "h", 0, 0⟩] "b@x.com" 10
        (forgotPassword [⟨1, "bob", "b@x.com", "h", 0, 0⟩] "b@x.com" 0
          ⟨[], [], 0⟩).2).2.tokens (FORGET_PASSWORD_NS ++ genToken 0) 259200000 = none
    ∧ tsGet (forgotPassword [⟨1, "bob", "b@x.com", "h", 0, 0⟩] "b@x.com" 10
        (forgotPassword [⟨1, "bob", "b@x.com", "h", 0, 0⟩] "b@x.com" 0
          ⟨[], [], 0⟩).2).2.tokens (FORGET_PASSWORD_NS ++ genToken 1) 259200009 = some 1 := by
  have h := forgotPassword_twice_frame [⟨1, "bob", "b@x.com", "h", 0, 0⟩] "b@x.com" 0 10
    ⟨[], [], 0⟩ ⟨1, "bob", "b@x.com", "h", 0, 0⟩ (by decide)
  refine ⟨h.1, ?_, ?_, ?_, ?_⟩
  · rw [(h.2 5).1]
    decide
  · rw [(h.2 5).2]
    decide
  · rw [(h.2 259200000).1]
    decide
  · rw [(h.2 259200009).2]
    decide

end RadIt
